import Mathlib

/-!
Shallow embedding of the Family-Rosta application core (the single React
source file of the repository).  The embedding models:

* the JavaScript values that appear in slot records (`JsVal`),
* `stringToHslColor` (identity → HSL color, via the `hash << 5` fold),
* the JS `Date` calendar arithmetic used by `getMondayOfWeek`,
  `formatDate` and the `rotaWeeks` generator (dates are modelled as
  day numbers since 1970-01-01, the proleptic Gregorian calendar that
  JS `Date` implements; `getDay` is 0 = Sunday … 6 = Saturday),
* the `onSnapshot` reconciliation callback that rebuilds `rotaData`,
* the `RotaCell` derived values (`docId`, `isClaimed`, `isMine`) and its
  `handleToggle` handler, together with Firestore `setDoc`-with-merge
  semantics so that round trips over the remote store can be stated.

Machine arithmetic: JS numbers are modelled as exact integers; the only
place the source relies on 32-bit wraparound is the `<<` operator inside
`stringToHslColor`, which is modelled by an explicit `% 2^32` reduction
(`toInt32`).  This is exact for every string short enough that the
accumulator stays below 2^53, i.e. all realistic display names.
-/

namespace FamilyRosta

/-- JavaScript values that can occur in the slot-record fields handled by
the app: `undefined` (absent key), `null`, strings, and numbers (the
`Date.now()` timestamp; modelled as an exact integer). -/
inductive JsVal where
  | undef : JsVal
  | null : JsVal
  | str : String → JsVal
  | num : Int → JsVal
deriving DecidableEq

/-- JS truthiness for the values of `JsVal`: `undefined` and `null` are
falsy, a string is truthy iff non-empty, a number is truthy iff nonzero. -/
def truthy : JsVal → Bool
  | .undef => false
  | .null => false
  | .str s => s ≠ ""
  | .num n => n ≠ 0

/-- A remote slot document as the app reads and writes it: the four keys
`claimedBy`, `name`, `color`, `timestamp`.  A key that is absent from the
document (or from a write payload) is `JsVal.undef`. -/
structure SlotDoc where
  claimedBy : JsVal
  name : JsVal
  color : JsVal
  timestamp : JsVal
deriving DecidableEq

/-- The document `{}`: every field absent. -/
def emptySlot : SlotDoc := ⟨.undef, .undef, .undef, .undef⟩

/-! ## stringToHslColor -/

/-- ToInt32: reduce an exact integer to the signed 32-bit value JS
bitwise operators work on. -/
def toInt32 (x : Int) : Int :=
  let r := x % 4294967296
  if r < 2147483648 then r else r - 4294967296

/-- One step of the hash fold in `stringToHslColor`:
`hash = str.charCodeAt(i) + ((hash << 5) - hash)`.  The shift coerces
`hash` to int32, multiplies by 32 and keeps the low 32 bits (signed);
the outer subtraction and addition are exact. -/
def hashStep (h : Int) (c : Nat) : Int :=
  (c : Int) + (toInt32 (32 * h) - h)

/-- The hash accumulated over the string, left to right.  Characters are
taken as their UTF-16 code units (`charCodeAt`); for the BMP characters
used by the app this is the Unicode scalar value. -/
def jsHash (s : String) : Int :=
  s.data.foldl (fun h c => hashStep h c.toNat) 0

/-- JS remainder `a % b` for `b > 0`: truncated division, so the result
carries the sign of the dividend `a`. -/
def jsRem (a b : Int) : Int :=
  if a < 0 then -((-a) % b) else a % b

/-- The hue computed by `stringToHslColor`: `hash % 360` with JS
remainder semantics (no normalization of negative values). -/
def jsHue (s : String) : Int := jsRem (jsHash s) 360

/-- Return value of `stringToHslColor`: the template string `hsl(hue, 70%, 50%)`. -/
def stringToHslColor (s : String) : String :=
  "hsl(" ++ toString (jsHue s) ++ ", 70%, 50%)"

/-- Memoized `userColor` as `App` computes it: `stringToHslColor(userName)`
(the `useMemo` merely caches this pure application). -/
def userColor (userName : String) : String := stringToHslColor userName

/-- The initial `userName` state:
`localStorage.getItem('rotaUserName') || ''`. -/
def initialUserName (stored : Option String) : String := stored.getD ""

/-! ## JS Date model: day numbers and the civil calendar -/

/-- JS `getDay()`: day of week, 0 = Sunday … 6 = Saturday.  Day number 0
is 1970-01-01, a Thursday. -/
def dayOfWeek (n : Int) : Int := (n + 4) % 7

/-- Source `getMondayOfWeek`: with `day = d.getDay()`, move to
`d.getDate() - day + (day === 0 ? -6 : 1)`.  Time-of-day components are
cleared by the source; the day-number model has none. -/
def getMondayOfWeek (n : Int) : Int :=
  let day := dayOfWeek n
  n - day + (if day = 0 then -6 else 1)

/-- Civil date from a day number (proleptic Gregorian, as JS `Date`):
returns `(year, month 1..12, day 1..31)`. -/
def civilFromDays (z0 : Int) : Int × Int × Int :=
  let z := z0 + 719468
  let era := z / 146097
  let doe := z - era * 146097
  let yoe := (doe - doe / 1460 + doe / 36524 - doe / 146096) / 365
  let y := yoe + era * 400
  let doy := doe - (365 * yoe + yoe / 4 - yoe / 100)
  let mp := (5 * doy + 2) / 153
  let d := doy - (153 * mp + 2) / 5 + 1
  let m := mp + (if mp < 10 then 3 else -9)
  (y + (if m ≤ 2 then 1 else 0), m, d)

/-- Day number from a civil date (inverse of `civilFromDays`). -/
def daysFromCivil (y0 m d : Int) : Int :=
  let y := y0 - (if m ≤ 2 then 1 else 0)
  let era := y / 400
  let yoe := y - era * 400
  let doy := (153 * (m + (if m > 2 then -3 else 9)) + 2) / 5 + d - 1
  let doe := yoe * 365 + yoe / 4 - yoe / 100 + doy
  era * 146097 + doe - 719468

/-- Two-digit zero padding, `String(x).padStart(2, '0')` for `0 ≤ x ≤ 99`. -/
def pad2 (x : Int) : String :=
  if x < 10 then "0" ++ toString x else toString x

/-- Source `formatDate`: `yyyy-mm-dd` with month and day zero-padded to two
digits (`getFullYear`/`getMonth() + 1`/`getDate`). -/
def formatDate (n : Int) : String :=
  let c := civilFromDays n
  toString c.1 ++ "-" ++ pad2 c.2.1 ++ "-" ++ pad2 c.2.2

/-! ## rotaWeeks -/

/-- The `MONTHS` constant. -/
def MONTHS : List String :=
  ["Jan", "Feb", "Mar", "Apr", "May", "Jun",
   "Jul", "Aug", "Sep", "Oct", "Nov", "Dec"]

/-- Source `getUKShortDate`: `dd Mon`, day zero-padded, month from `MONTHS`. -/
def getUKShortDate (n : Int) : String :=
  let c := civilFromDays n
  pad2 c.2.2 ++ " " ++ (MONTHS.getD (c.2.1 - 1).toNat "")

/-- One generated week: `id` is `formatDate(weekStart)`, `dates` the
seven consecutive day numbers from the week's Monday, `weekRangeLabel`
the presentational range string. -/
structure Week where
  id : String
  dates : List Int
  weekRangeLabel : String
deriving DecidableEq

/-- The body of the `rotaWeeks` loop for index `w`. -/
def mkWeek (startOfCurrentWeek : Int) (w : Nat) : Week :=
  let weekStart := startOfCurrentWeek + (w : Int) * 7
  let weekDates := (List.range 7).map (fun d => weekStart + Int.ofNat d)
  { id := formatDate weekStart
    dates := weekDates
    weekRangeLabel :=
      "Week " ++ getUKShortDate weekStart ++ " - "
        ++ getUKShortDate (weekStart + 6) }

/-- Source `rotaWeeks`, with the reference instant (`new Date()`, as a day
number) and the week count (`weeksToDisplay`) as parameters. -/
def generateWeeks (ref : Int) (count : Nat) : List Week :=
  (List.range count).map (mkWeek (getMondayOfWeek ref))

/-- The source's `weeksToDisplay` constant. -/
def weeksToDisplay : Nat := 8

/-! ## Reconciliation: the onSnapshot callback -/

/-- A snapshot is the list of `(doc.id, doc.data())` pairs the listener
iterates over. -/
abbrev Snapshot := List (String × SlotDoc)

/-- The body of the `onSnapshot` callback: build `newRotaData` fresh,
keeping exactly the documents whose `claimedBy` is truthy, keyed by
`doc.id`. -/
def reconcile (snap : Snapshot) : Snapshot :=
  snap.filter (fun e => truthy e.2.claimedBy)

/-- The callback ends with `setRotaData(newRotaData)`: the previous
mapping is discarded wholesale. -/
def onSnapshotUpdate (_old : Snapshot) (snap : Snapshot) : Snapshot :=
  let newRotaData := reconcile snap
  newRotaData

/-- JS object indexing `data[docId]`: the first binding for the key
(snapshot doc ids are unique). -/
def findDoc (k : String) : Snapshot → Option SlotDoc
  | [] => none
  | (key, v) :: rest => if key = k then some v else findDoc k rest

/-! ## RotaCell: derived values and handleToggle -/

/-- The characters the regex class `\s` matches in the task names the
app uses (ASCII whitespace; the full JS class also has Unicode spaces,
which no task name contains). -/
def isJsSpace (c : Char) : Bool :=
  c = ' ' ∨ c = '\t' ∨ c = '\n' ∨ c = '\r' ∨ c = '\x0b' ∨ c = '\x0c'

/-- Character-wise `task.replace(/\s/g, '_')`: each whitespace character
is replaced by an underscore. -/
def replaceWs (task : String) : String :=
  ⟨task.data.map (fun c => if isJsSpace c then '_' else c)⟩

/-- The cell's document id:
`formatDate(date) + "_" + task.replace(/\s/g, '_')`. -/
def docId (date : Int) (task : String) : String :=
  formatDate date ++ "_" ++ replaceWs task

/-- Cell slot lookup `data[docId] || {}`. -/
def cellSlot (data : Snapshot) (did : String) : SlotDoc :=
  (findDoc did data).getD emptySlot

/-- Derived `isClaimed = !!slot.claimedBy`. -/
def isClaimed (slot : SlotDoc) : Bool := truthy slot.claimedBy

/-- Derived `isMine = slot.claimedBy === userId` (strict equality; note that an
absent field is `undefined`, which is not strictly equal to `null`). -/
def isMine (slot : SlotDoc) (userId : JsVal) : Bool := slot.claimedBy == userId

/-- The props of `RotaCell` that `handleToggle` reads, besides the slot
data: the host flag, `userId` (a string once authenticated, `null`
before), `userName`, `userColor`, and the truthiness of `db`. -/
structure ToggleEnv where
  isExternalHost : Bool
  userId : JsVal
  userName : String
  userColor : String
  db : Bool
deriving DecidableEq

/-- A `setDoc(docRef, fields, { merge })` request; an `undef` field is a
key absent from the payload object. -/
structure WriteReq where
  docId : String
  fields : SlotDoc
  merge : Bool
deriving DecidableEq

/-- What one invocation of `handleToggle` does: alert and return in
offline mode, warn and return when user/name/db are not ready, issue a
single write, or fall through without writing (slot claimed by someone
else). -/
inductive ToggleOutcome where
  | offlineAlert : ToggleOutcome
  | notReadyWarn : ToggleOutcome
  | write : WriteReq → ToggleOutcome
  | noop : ToggleOutcome
deriving DecidableEq

/-- Source `handleToggle` of `RotaCell`, with the cell's `docId`, `slot`,
`isClaimed`, `isMine` inlined from the component body.  `now` is
`Date.now()`. -/
def handleToggle (env : ToggleEnv) (data : Snapshot) (date : Int)
    (task : String) (now : Int) : ToggleOutcome :=
  if env.isExternalHost then .offlineAlert
  else if !truthy env.userId || env.userName == "" || !env.db then .notReadyWarn
  else
    let did := docId date task
    let slot := cellSlot data did
    if isMine slot env.userId then
      .write ⟨did, ⟨.null, .null, .null, .undef⟩, true⟩
    else if !isClaimed slot then
      .write ⟨did, ⟨env.userId, .str env.userName, .str env.userColor, .num now⟩, true⟩
    else
      .noop

/-! ## Firestore setDoc-with-merge semantics -/

/-- Merge one field: a key absent from the payload keeps the old value;
a present key (including an explicit `null`) overwrites it. -/
def mergeField (old new : JsVal) : JsVal :=
  if new = .undef then old else new

/-- Merge a payload into an existing document (an absent document merges
as `{}`, so the write creates it). -/
def applyMerge (old w : SlotDoc) : SlotDoc :=
  ⟨mergeField old.claimedBy w.claimedBy,
   mergeField old.name w.name,
   mergeField old.color w.color,
   mergeField old.timestamp w.timestamp⟩

/-- Apply a write request to the remote store. -/
def applyWrite (store : String → Option SlotDoc) (w : WriteReq) :
    String → Option SlotDoc :=
  fun k =>
    if k = w.docId then
      some (if w.merge then applyMerge ((store k).getD emptySlot) w.fields else w.fields)
    else store k

/-- The write a toggle outcome issues, if any. -/
def writesOf : ToggleOutcome → Option WriteReq
  | .write w => some w
  | _ => none

/-- The remote store after a toggle outcome. -/
def applyOutcome (store : String → Option SlotDoc) (o : ToggleOutcome) :
    String → Option SlotDoc :=
  match writesOf o with
  | some w => applyWrite store w
  | none => store

/-- The snapshot the store delivers over a universe of document ids:
documents that exist, keyed by id. -/
def storeSnapshot (store : String → Option SlotDoc) (docs : List String) :
    Snapshot :=
  docs.filterMap (fun k => (store k).map (fun d => (k, d)))

/-- The local mapping once a store has settled: the listener receives the
store's snapshot and reconciles it. -/
def settledData (store : String → Option SlotDoc) (docs : List String) :
    Snapshot :=
  reconcile (storeSnapshot store docs)

/-- A field is empty in the spec's sense when it carries no value
(absent or `null`). -/
def fieldEmpty : JsVal → Bool
  | .undef => true
  | .null => true
  | _ => false

/-- One full toggle round against a settled store: the cell recomputes
its derived state from the reconciled snapshot of `store` (over the
document universe `docs`), runs `handleToggle`, and the store applies
whatever write was issued. -/
def toggleOnce (env : ToggleEnv) (store : String → Option SlotDoc)
    (docs : List String) (date : Int) (task : String) (now : Int) :
    String → Option SlotDoc :=
  applyOutcome store (handleToggle env (settledData store docs) date task now)

/-- Default `Week` used with `List.getD`. -/
def defaultWeek : Week := ⟨"", [], ""⟩

/-! ## Helper lemmas -/

/-- Strict equality of a falsy and a truthy value is false (in
particular `undefined === userId` fails for every string-or-null
`userId`, and a falsy `claimedBy` never equals a truthy one). -/
theorem beq_false_of_falsy_truthy (a b : JsVal) (ha : truthy a = false)
    (hb : truthy b = true) : (a == b) = false := by
  rw [beq_eq_false_iff_ne]
  intro h
  subst h
  rw [ha] at hb
  exact Bool.false_ne_true hb

/-- Every document found in a reconciled mapping has truthy `claimedBy`:
the filter in the `onSnapshot` callback admits nothing else. -/
theorem findDoc_reconcile_truthy (snap : Snapshot) (k : String) (doc : SlotDoc)
    (h : findDoc k (reconcile snap) = some doc) : truthy doc.claimedBy = true := by
  induction snap with
  | nil => simp [reconcile, findDoc] at h
  | cons e rest ih =>
    obtain ⟨ek, ev⟩ := e
    rw [reconcile, List.filter_cons] at h
    by_cases hcb : truthy ev.claimedBy
    · simp only [hcb, if_pos] at h
      rw [findDoc] at h
      by_cases hk : ek = k
      · simp only [hk, if_pos] at h
        cases h
        exact hcb
      · simp only [hk, if_neg, if_false] at h
        exact ih h
    · simp only [show truthy (ek, ev).2.claimedBy = false by simpa using hcb] at h
      exact ih h

/-- The Monday computed by `getMondayOfWeek` really is a Monday. -/
theorem dayOfWeek_getMondayOfWeek (n : Int) : dayOfWeek (getMondayOfWeek n) = 1 := by
  simp only [getMondayOfWeek, dayOfWeek]
  split <;> omega

/-- Indexing the generated week list. -/
theorem generateWeeks_getD (ref : Int) (count i : Nat) (h : i < count) :
    (generateWeeks ref count).getD i defaultWeek = mkWeek (getMondayOfWeek ref) i := by
  simp [generateWeeks, List.getD_eq_getElem?_getD, List.getElem?_map,
    List.getElem?_range, h]

/-- Indexing the dates of one generated week. -/
theorem mkWeek_dates_getD (m : Int) (w j : Nat) (hj : j < 7) :
    (mkWeek m w).dates.getD j 0 = m + (w : Int) * 7 + (j : Int) := by
  simp [mkWeek, List.getD_eq_getElem?_getD, List.getElem?_map,
    List.getElem?_range, hj]

/-- Each generated week holds exactly seven dates. -/
theorem mkWeek_dates_length (m : Int) (w : Nat) : (mkWeek m w).dates.length = 7 := by
  simp [mkWeek]

/-! ## Claim theorems -/

/-- C1 counterexample: starting from an absent document, claiming
(`toggle`) and then unclaiming (`toggle` by the same identity, store
settled in between) does NOT leave all four claim fields empty — the
unclaiming write `{claimedBy: null, name: null, color: null}` omits
`timestamp`, so the merge keeps the timestamp written by the claim
(here `5`). -/
theorem C1_counterexample :
    toggleOnce ⟨false, .str "A", "Alice", stringToHslColor "Alice", true⟩
        (toggleOnce ⟨false, .str "A", "Alice", stringToHslColor "Alice", true⟩
          (fun _ => none) [docId 19725 "Breakfast"] 19725 "Breakfast" 5)
        [docId 19725 "Breakfast"] 19725 "Breakfast" 9 (docId 19725 "Breakfast") =
      some ⟨.null, .null, .null, .num 5⟩ ∧
    fieldEmpty (JsVal.num 5) = false := by
  decide

/-- C1 (amended): starting from Unclaimed, `toggle` then `toggle` by the
same ready identity with the store settled between the calls returns the
slot to Unclaimed — `claimedBy`, `name` (claimantName) and `color`
(claimantColor) are cleared to `null` and the slot is dropped from the
reconciled local mapping — but the `timestamp` (claimedAt) field is not
cleared: it retains the value written by the claiming toggle. -/
theorem C1_round_trip_amended (env : ToggleEnv) (uid task : String)
    (store0 : String → Option SlotDoc) (date t1 t2 : Int)
    (hext : env.isExternalHost = false)
    (henvuid : env.userId = .str uid) (huid : uid ≠ "")
    (hname : env.userName ≠ "") (hdb : env.db = true)
    (h0 : store0 (docId date task) = none) :
    toggleOnce env (toggleOnce env store0 [docId date task] date task t1)
        [docId date task] date task t2 (docId date task) =
      some ⟨.null, .null, .null, .num t1⟩ ∧
    settledData
      (toggleOnce env (toggleOnce env store0 [docId date task] date task t1)
        [docId date task] date task t2) [docId date task] = [] := by
  obtain ⟨ext, euid, ename, ecolor, edb⟩ := env
  simp only at hext henvuid hname hdb
  subst hext henvuid hdb
  have htruthy : truthy (JsVal.str uid) = true := by simp [truthy, huid]
  set doc1 : SlotDoc := ⟨.str uid, .str ename, .str ecolor, .num t1⟩ with hdoc1
  have hdata0 : settledData store0 [docId date task] = [] := by
    simp [settledData, storeSnapshot, reconcile, h0]
  have hmine0 : isMine (cellSlot [] (docId date task)) (JsVal.str uid) = false := by
    apply beq_false_of_falsy_truthy
    · simp [cellSlot, findDoc, emptySlot, truthy]
    · exact htruthy
  have hclaimed0 : isClaimed (cellSlot [] (docId date task)) = false := by
    simp [cellSlot, findDoc, emptySlot, isClaimed, truthy]
  have step1 : toggleOnce ⟨false, .str uid, ename, ecolor, true⟩ store0
      [docId date task] date task t1 =
      fun k => if k = docId date task then some doc1 else store0 k := by
    funext k
    rw [toggleOnce, hdata0, handleToggle]
    simp [htruthy, hname, hmine0, hclaimed0, applyOutcome, writesOf, applyWrite,
      h0, applyMerge, mergeField, emptySlot, hdoc1]
  have hsnap1 : settledData (fun k => if k = docId date task then some doc1 else store0 k)
      [docId date task] = [(docId date task, doc1)] := by
    simp [settledData, storeSnapshot, reconcile, hdoc1, htruthy]
  have hmine1 : isMine (cellSlot [(docId date task, doc1)] (docId date task))
      (JsVal.str uid) = true := by
    simp [cellSlot, findDoc, isMine, hdoc1]
  have step2 : toggleOnce ⟨false, .str uid, ename, ecolor, true⟩
      (fun k => if k = docId date task then some doc1 else store0 k)
      [docId date task] date task t2 =
      fun k => if k = docId date task
        then some ⟨.null, .null, .null, .num t1⟩ else store0 k := by
    funext k
    rw [toggleOnce, hsnap1, handleToggle]
    simp only [htruthy, hname, hmine1, applyOutcome, writesOf, applyWrite,
      applyMerge, mergeField, hdoc1]
    by_cases hk : k = docId date task <;> simp [hk, htruthy, hname, hmine1,
      applyOutcome, writesOf, applyWrite, applyMerge, mergeField]
  rw [step1, step2]
  constructor
  · simp
  · simp [settledData, storeSnapshot, reconcile, truthy]

/-- C1 witness: the amended round trip at a concrete identity, task and
timestamps. -/
theorem C1_round_trip_amended_witness :
    toggleOnce ⟨false, .str "B", "Bob", "c", true⟩
        (toggleOnce ⟨false, .str "B", "Bob", "c", true⟩
          (fun _ => none) [docId 19726 "Lunch"] 19726 "Lunch" 11)
        [docId 19726 "Lunch"] 19726 "Lunch" 12 (docId 19726 "Lunch") =
      some ⟨.null, .null, .null, .num 11⟩ ∧
    settledData
      (toggleOnce ⟨false, .str "B", "Bob", "c", true⟩
        (toggleOnce ⟨false, .str "B", "Bob", "c", true⟩
          (fun _ => none) [docId 19726 "Lunch"] 19726 "Lunch" 11)
        [docId 19726 "Lunch"] 19726 "Lunch" 12) [docId 19726 "Lunch"] = [] :=
  C1_round_trip_amended ⟨false, .str "B", "Bob", "c", true⟩ "B" "Lunch"
    (fun _ => none) 19726 11 12 rfl rfl (by decide) (by decide) rfl rfl

/-- C2 counterexample: a remote record whose `claimedBy` is set but whose
`name`, `color` and `timestamp` companion fields are all missing is NOT
excluded from the local mapping — reconciliation keeps it. -/
theorem C2_counterexample :
    ("2024-01-01_Breakfast", (⟨.str "A", .undef, .undef, .undef⟩ : SlotDoc)) ∈
      reconcile [("2024-01-01_Breakfast", ⟨.str "A", .undef, .undef, .undef⟩)] := by
  decide

/-- C2 (amended): reconciliation filters solely on `claimedBy` being
truthy; a remote record with `claimedBy` set but one or more of the
companion fields (`name`, `color`, `timestamp`) missing is still
included in the local mapping, not treated as absent. -/
theorem C2_partial_record_included (snap : Snapshot) (k : String) (doc : SlotDoc)
    (hmem : (k, doc) ∈ snap) (hcb : truthy doc.claimedBy = true)
    (_hmal : fieldEmpty doc.name = true ∨ fieldEmpty doc.color = true ∨
            fieldEmpty doc.timestamp = true) :
    (k, doc) ∈ reconcile snap := by
  simp only [reconcile, List.mem_filter]
  exact ⟨hmem, hcb⟩

/-- C2 witness: the amended inclusion at a concrete malformed record. -/
theorem C2_partial_record_included_witness :
    ("2024-01-02_Dinner", (⟨.str "B", .undef, .str "c", .num 3⟩ : SlotDoc)) ∈
      reconcile [("2024-01-02_Dinner", ⟨.str "B", .undef, .str "c", .num 3⟩)] :=
  C2_partial_record_included _ _ _ (by decide) (by decide) (Or.inl (by decide))

/-- C3 counterexample: on the string "aaaaaa" the accumulated hash is
negative and JS `%` keeps the sign of the dividend, so the hue is `-304`,
outside `[0, 360)` — negative remainders are not normalized, and the
emitted color literally contains the negative hue. -/
theorem C3_counterexample :
    jsHue "aaaaaa" = -304 ∧ jsHue "aaaaaa" < 0 ∧
    stringToHslColor "aaaaaa" = "hsl(-304, 70%, 50%)" := by
  decide

/-- C3 (amended): `stringToHslColor` folds the characters left to right
with `hash = char + ((hash << 5) - hash)` (the shift truncated to signed
32 bits, the outer sum exact), takes `hash % 360` with JS truncated
remainder (sign of the dividend, so the hue lies in `(-360, 360)` and may
be negative — it is NOT normalized into `[0, 360)`), and emits the color
at fixed saturation 70% and lightness 50% with that hue. -/
theorem C3_hue_range_amended (s : String) (c : Char) :
    (-360 < jsHue s ∧ jsHue s < 360) ∧
    jsHash (s.push c) = (c.toNat : Int) + (toInt32 (32 * jsHash s) - jsHash s) ∧
    stringToHslColor s = "hsl(" ++ toString (jsHue s) ++ ", 70%, 50%)" := by
  refine ⟨?_, ?_, rfl⟩
  · unfold jsHue jsRem
    split <;> constructor <;> omega
  · simp [jsHash, String.push, List.foldl_append, hashStep]

/-- C4: for every reference instant and `weekCount ≥ 1`, `generateWeeks`
returns exactly `weekCount` weeks; each week has exactly 7 days; the
days run Monday→Sunday (JS weekday `1,2,3,4,5,6,0`) on consecutive day
numbers; consecutive weeks' Mondays are exactly 7 days apart; week 0's
Monday obeys the "Sunday ⇒ 6 back, else weekday − 1 back" rule; and in
particular from Wednesday 2024-01-03 with 8 weeks, week 0's Monday is
2024-01-01 and week 7's Monday is 2024-02-19. -/
theorem C4_generateWeeks (ref : Int) (count : Nat) (hc : 1 ≤ count) :
    (generateWeeks ref count).length = count ∧
    (∀ w ∈ generateWeeks ref count, w.dates.length = 7) ∧
    (∀ i j : Nat, i < count → j < 7 →
       ((generateWeeks ref count).getD i defaultWeek).dates.getD j 0 =
         ((generateWeeks ref count).getD i defaultWeek).dates.getD 0 0 + (j : Int) ∧
       dayOfWeek (((generateWeeks ref count).getD i defaultWeek).dates.getD j 0) =
         (if j = 6 then 0 else (j : Int) + 1)) ∧
    (∀ i : Nat, i + 1 < count →
       ((generateWeeks ref count).getD (i + 1) defaultWeek).dates.getD 0 0 =
         ((generateWeeks ref count).getD i defaultWeek).dates.getD 0 0 + 7) ∧
    ((generateWeeks ref count).getD 0 defaultWeek).dates.getD 0 0 =
      (if dayOfWeek ref = 0 then ref - 6 else ref - (dayOfWeek ref - 1)) ∧
    ((generateWeeks (daysFromCivil 2024 1 3) 8).getD 0 defaultWeek).id = "2024-01-01" ∧
    ((generateWeeks (daysFromCivil 2024 1 3) 8).getD 7 defaultWeek).id = "2024-02-19" := by
  have hm : (getMondayOfWeek ref + 4) % 7 = 1 := dayOfWeek_getMondayOfWeek ref
  refine ⟨?_, ?_, ?_, ?_, ?_, ?_, ?_⟩
  · simp [generateWeeks]
  · intro w hw
    simp only [generateWeeks, List.mem_map] at hw
    obtain ⟨i, _, rfl⟩ := hw
    exact mkWeek_dates_length _ _
  · intro i j hi hj
    rw [generateWeeks_getD ref count i hi, mkWeek_dates_getD _ _ _ hj,
        mkWeek_dates_getD _ _ 0 (by omega)]
    constructor
    · omega
    · unfold dayOfWeek
      interval_cases j <;> simp <;> omega
  · intro i hi
    rw [generateWeeks_getD ref count (i + 1) hi, generateWeeks_getD ref count i (by omega),
        mkWeek_dates_getD _ _ 0 (by omega), mkWeek_dates_getD _ _ 0 (by omega)]
    push_cast
    ring
  · rw [generateWeeks_getD ref count 0 (by omega), mkWeek_dates_getD _ 0 0 (by omega)]
    simp only [getMondayOfWeek, dayOfWeek]
    split <;> omega
  · decide
  · decide

/-- C4 witness: eight weeks are generated from the 2024-01-03 reference
instant. -/
theorem C4_generateWeeks_witness :
    (generateWeeks (daysFromCivil 2024 1 3) 8).length = 8 :=
  (C4_generateWeeks (daysFromCivil 2024 1 3) 8 (by decide)).1

/-- C5: when the slot derived from the local mapping is ClaimedByOther
(`claimedBy` truthy and not strictly equal to the local `userId`),
`handleToggle` issues no write at all and the remote store is unchanged
(this also covers toggles rejected earlier by the readiness guards). -/
theorem C5_claimed_by_other_no_write (env : ToggleEnv) (data : Snapshot)
    (date now : Int) (task : String) (store : String → Option SlotDoc)
    (hcl : isClaimed (cellSlot data (docId date task)) = true)
    (hnm : isMine (cellSlot data (docId date task)) env.userId = false) :
    writesOf (handleToggle env data date task now) = none ∧
    applyOutcome store (handleToggle env data date task now) = store := by
  rw [handleToggle]
  by_cases h1 : env.isExternalHost = true
  · simp [h1, writesOf, applyOutcome]
  · by_cases h2 : (!truthy env.userId || env.userName == "" || !env.db) = true
    · simp [h1, h2, writesOf, applyOutcome]
    · simp [h1, h2, hnm, hcl, writesOf, applyOutcome]

/-- C5 witness: a ready user "A" toggling a slot claimed by "B" issues no
write and leaves the store unchanged. -/
theorem C5_claimed_by_other_no_write_witness :
    writesOf (handleToggle ⟨false, .str "A", "Alice", "c", true⟩
      [(docId 19725 "Breakfast", ⟨.str "B", .str "Bob", .str "d", .num 1⟩)]
      19725 "Breakfast" 7) = none ∧
    applyOutcome (fun _ => none)
      (handleToggle ⟨false, .str "A", "Alice", "c", true⟩
        [(docId 19725 "Breakfast", ⟨.str "B", .str "Bob", .str "d", .num 1⟩)]
        19725 "Breakfast" 7) = (fun _ => none) :=
  C5_claimed_by_other_no_write ⟨false, .str "A", "Alice", "c", true⟩
    [(docId 19725 "Breakfast", ⟨.str "B", .str "Bob", .str "d", .num 1⟩)]
    19725 7 "Breakfast" (fun _ => none) (by decide) (by decide)

/-- C6: whenever the host is external (store unreachable) or the local
identity lacks a truthy id, a non-empty display name, or a database
handle, `handleToggle` stops at one of the two early-return rejection
signals, before any write is attempted, and the store is unchanged. -/
theorem C6_not_ready_no_write (env : ToggleEnv) (data : Snapshot)
    (date now : Int) (task : String) (store : String → Option SlotDoc)
    (h : env.isExternalHost = true ∨ truthy env.userId = false ∨
         env.userName = "" ∨ env.db = false) :
    (handleToggle env data date task now = .offlineAlert ∨
     handleToggle env data date task now = .notReadyWarn) ∧
    writesOf (handleToggle env data date task now) = none ∧
    applyOutcome store (handleToggle env data date task now) = store := by
  rw [handleToggle]
  by_cases h1 : env.isExternalHost = true
  · simp [h1, writesOf, applyOutcome]
  · have h2 : (!truthy env.userId || env.userName == "" || !env.db) = true := by
      rcases h with h | h | h | h
      · exact absurd h h1
      · simp [h]
      · simp [h]
      · simp [h]
    simp [h1, h2, writesOf, applyOutcome]

/-- C6 witness: a user with no display name set is rejected without a
write. -/
theorem C6_not_ready_no_write_witness :
    (handleToggle ⟨false, .str "A", "", "c", true⟩ [] 19725 "Dinner" 7 =
       .offlineAlert ∨
     handleToggle ⟨false, .str "A", "", "c", true⟩ [] 19725 "Dinner" 7 =
       .notReadyWarn) ∧
    writesOf (handleToggle ⟨false, .str "A", "", "c", true⟩ [] 19725 "Dinner" 7) =
      none ∧
    applyOutcome (fun _ => none)
      (handleToggle ⟨false, .str "A", "", "c", true⟩ [] 19725 "Dinner" 7) =
      (fun _ => none) :=
  C6_not_ready_no_write ⟨false, .str "A", "", "c", true⟩ [] 19725 7 "Dinner"
    (fun _ => none) (Or.inr (Or.inr (Or.inl rfl)))

/-- C7: on every snapshot the local mapping is fully replaced — the
result does not depend on the previous mapping — and it holds exactly
the remote records with non-empty (truthy) `claimedBy`, keyed by doc id;
records with empty `claimedBy` are omitted, so no stale claimed entry
can survive an unclaim. -/
theorem C7_snapshot_full_replacement (old1 old2 snap : Snapshot) :
    onSnapshotUpdate old1 snap = onSnapshotUpdate old2 snap ∧
    (∀ k doc, (k, doc) ∈ onSnapshotUpdate old1 snap ↔
      ((k, doc) ∈ snap ∧ truthy doc.claimedBy = true)) := by
  refine ⟨rfl, ?_⟩
  intro k doc
  simp [onSnapshotUpdate, reconcile, List.mem_filter]

/-- C8: from Unclaimed, a ready identity's toggle issues exactly one
merge-style write, keyed by the slot id
`formatDate(date) + "_" + task-with-whitespace-replaced-by-underscores`,
whose payload carries the four wire fields: `claimedBy` = the identity's
id, `name` = the display name, `color` = `stringToHslColor(name)` (the
app passes `userColor`, memoized from the name), `timestamp` = now. -/
theorem C8_claim_write_shape (env : ToggleEnv) (data : Snapshot)
    (date now : Int) (task : String)
    (hext : env.isExternalHost = false)
    (huid : truthy env.userId = true)
    (hname : env.userName ≠ "")
    (hdb : env.db = true)
    (hcolor : env.userColor = stringToHslColor env.userName)
    (hunc : isClaimed (cellSlot data (docId date task)) = false) :
    handleToggle env data date task now =
      .write ⟨docId date task,
              ⟨env.userId, .str env.userName, .str (stringToHslColor env.userName),
               .num now⟩,
              true⟩ ∧
    docId date task =
      formatDate date ++ "_" ++
        (⟨task.data.map (fun c => if isJsSpace c then '_' else c)⟩ : String) := by
  have hmine : isMine (cellSlot data (docId date task)) env.userId = false :=
    beq_false_of_falsy_truthy _ _ hunc huid
  refine ⟨?_, rfl⟩
  rw [handleToggle]
  simp [hext, huid, hname, hdb, hmine, hunc, hcolor]

/-- C8 witness: Alice claims an unclaimed slot; the single merge write
carries her id, name, derived color and the timestamp. -/
theorem C8_claim_write_shape_witness :
    handleToggle ⟨false, .str "A", "Alice", stringToHslColor "Alice", true⟩
        [] 19725 "Breakfast" 7 =
      .write ⟨docId 19725 "Breakfast",
              ⟨.str "A", .str "Alice", .str (stringToHslColor "Alice"), .num 7⟩,
              true⟩ :=
  (C8_claim_write_shape ⟨false, .str "A", "Alice", stringToHslColor "Alice", true⟩
    [] 19725 7 "Breakfast" rfl (by decide) (by decide) rfl rfl (by decide)).1

/-- C9: over any reconciled mapping and any local identity value that is
a string or `null`, `isMine` implies `isClaimed` (a cell can never be
mine yet unclaimed, because reconciliation only retains truthy
`claimedBy` and an absent slot's `undefined` is never strictly equal to
the identity), so exactly one of Unclaimed / ClaimedByMe /
ClaimedByOther holds for the cell. -/
theorem C9_claim_states_consistent (snap : Snapshot) (uid : JsVal) (did : String)
    (huid : uid = JsVal.null ∨ ∃ s, uid = JsVal.str s) :
    (isMine (cellSlot (reconcile snap) did) uid = true →
       isClaimed (cellSlot (reconcile snap) did) = true) ∧
    ((isClaimed (cellSlot (reconcile snap) did) = false ∧
        ¬ isMine (cellSlot (reconcile snap) did) uid = true ∧
        ¬ (isClaimed (cellSlot (reconcile snap) did) = true ∧
             isMine (cellSlot (reconcile snap) did) uid = false)) ∨
     (¬ isClaimed (cellSlot (reconcile snap) did) = false ∧
        isMine (cellSlot (reconcile snap) did) uid = true ∧
        ¬ (isClaimed (cellSlot (reconcile snap) did) = true ∧
             isMine (cellSlot (reconcile snap) did) uid = false)) ∨
     (¬ isClaimed (cellSlot (reconcile snap) did) = false ∧
        ¬ isMine (cellSlot (reconcile snap) did) uid = true ∧
        (isClaimed (cellSlot (reconcile snap) did) = true ∧
           isMine (cellSlot (reconcile snap) did) uid = false))) := by
  have key : isMine (cellSlot (reconcile snap) did) uid = true →
      isClaimed (cellSlot (reconcile snap) did) = true := by
    intro hm
    cases hf : findDoc did (reconcile snap) with
    | none =>
      rw [cellSlot, hf] at hm
      rcases huid with h | ⟨s, h⟩ <;> subst h <;>
        simp [isMine, emptySlot, Option.getD] at hm
    | some doc =>
      rw [cellSlot, hf]
      simpa [isClaimed] using findDoc_reconcile_truthy snap did doc hf
  refine ⟨key, ?_⟩
  revert key
  cases hc : isClaimed (cellSlot (reconcile snap) did) <;>
    cases hm : isMine (cellSlot (reconcile snap) did) uid <;> simp_all

/-- C9 witness: for a concrete reconciled snapshot and the null identity,
exactly one of the three derived states holds (here: ClaimedByOther). -/
theorem C9_claim_states_consistent_witness :
    (isClaimed (cellSlot (reconcile [("s", ⟨.str "A", .str "Alice", .str "c", .num 1⟩)]) "s") = false ∧
       ¬ isMine (cellSlot (reconcile [("s", ⟨.str "A", .str "Alice", .str "c", .num 1⟩)]) "s") JsVal.null = true ∧
       ¬ (isClaimed (cellSlot (reconcile [("s", ⟨.str "A", .str "Alice", .str "c", .num 1⟩)]) "s") = true ∧
            isMine (cellSlot (reconcile [("s", ⟨.str "A", .str "Alice", .str "c", .num 1⟩)]) "s") JsVal.null = false)) ∨
    (¬ isClaimed (cellSlot (reconcile [("s", ⟨.str "A", .str "Alice", .str "c", .num 1⟩)]) "s") = false ∧
       isMine (cellSlot (reconcile [("s", ⟨.str "A", .str "Alice", .str "c", .num 1⟩)]) "s") JsVal.null = true ∧
       ¬ (isClaimed (cellSlot (reconcile [("s", ⟨.str "A", .str "Alice", .str "c", .num 1⟩)]) "s") = true ∧
            isMine (cellSlot (reconcile [("s", ⟨.str "A", .str "Alice", .str "c", .num 1⟩)]) "s") JsVal.null = false)) ∨
    (¬ isClaimed (cellSlot (reconcile [("s", ⟨.str "A", .str "Alice", .str "c", .num 1⟩)]) "s") = false ∧
       ¬ isMine (cellSlot (reconcile [("s", ⟨.str "A", .str "Alice", .str "c", .num 1⟩)]) "s") JsVal.null = true ∧
       (isClaimed (cellSlot (reconcile [("s", ⟨.str "A", .str "Alice", .str "c", .num 1⟩)]) "s") = true ∧
          isMine (cellSlot (reconcile [("s", ⟨.str "A", .str "Alice", .str "c", .num 1⟩)]) "s") JsVal.null = false)) :=
  (C9_claim_states_consistent [("s", ⟨.str "A", .str "Alice", .str "c", .num 1⟩)]
    JsVal.null "s" (Or.inl rfl)).2

/-- C10: `stringToHslColor` is total on the empty string as well — the
fold over no characters leaves hash 0, the hue is 0, and the resulting
fixed color is exactly what the app computes as `userColor` at startup
when no display name is stored yet. -/
theorem C10_empty_name_color :
    jsHash "" = 0 ∧ jsHue "" = 0 ∧
    stringToHslColor "" = "hsl(0, 70%, 50%)" ∧
    userColor (initialUserName none) = "hsl(0, 70%, 50%)" := by
  decide

end FamilyRosta
